import Mathlib

/- Formal model of the voice-visual query session of the eAkshi application
   (src/src/app.jsx). Each definition is a shallow embedding of the
   corresponding function or event handler of that file: the React state
   variables become fields of explicit state structures, state setters become
   functional updates, and the platform speech/camera engines are modelled as
   oracles whose outcomes (terminal events, device-call success, HTTP
   responses) are parameters. -/

namespace EAkshi

/- Permission state of the microphone as tracked by the
   microphonePermission React state: granted, denied, prompt, or null. -/
inductive MicPermission
| granted
| denied
| prompt
| unknown
deriving DecidableEq, Repr

/- CameraMode type of app.jsx: facing user (front) or environment (back). -/
inductive CameraMode
| user
| environment
deriving DecidableEq, Repr

/- The facing opposite to the given one, as computed by switchCamera line 540:
   newMode = cameraMode === user ? environment : user. -/
def CameraMode.toggle : CameraMode → CameraMode
| .user => .environment
| .environment => .user

/- Embedding of JavaScript String.prototype.trim: drop whitespace from both
   ends of the string (whitespace as classified by Char.isWhitespace). -/
def jsTrim (s : String) : String :=
  String.mk (((s.data.dropWhile Char.isWhitespace).reverse.dropWhile
    Char.isWhitespace).reverse)

/- ------------------------------------------------------------------ -/
/- AudioOutputController: the speak function (app.jsx lines 260-353),
   stopSpeaking, the utterance onend/onerror handlers and the watchdog. -/

/- The pieces of component state read by speak and captured by the closures
   it creates: the guard of line 261 reads speechEnabled, hasSpeechSynthesis
   and microphonePermission; attemptSpeak reads isVoicesLoaded (line 278);
   the watchdog closure of lines 334-340 captures the isSpeaking const of
   the render that created this speak instance. -/
structure SpeakEnv where
  speechEnabled : Bool
  hasSpeechSynthesis : Bool
  microphonePermission : MicPermission
  isVoicesLoaded : Bool
  isSpeaking : Bool
deriving DecidableEq, Repr

/- The guard of speak (line 261): speech proceeds only when output is enabled,
   synthesis is available, the trimmed text is nonempty, and microphone
   permission is granted; otherwise the callback is invoked immediately. -/
def speakGatePasses (env : SpeakEnv) (text : String) : Bool :=
  env.speechEnabled && env.hasSpeechSynthesis && (jsTrim text ≠ "") &&
    (env.microphonePermission == .granted)

/- Speaking-channel state: the isSpeaking flag and whether utteranceRef
   currently holds an utterance. -/
structure SpeechState where
  isSpeaking : Bool
  utteranceActive : Bool
deriving DecidableEq, Repr

/- Terminal platform event delivered to a started utterance: the engine fires
   exactly one of end or error per utterance; cancellation by a later speak or
   by stopSpeaking surfaces as an error event with code interrupted or
   canceled. -/
inductive SpeechTerminalEvent
| endEvent
| errorEvent (code : String)
deriving DecidableEq, Repr

/- utterance.onend (lines 310-317): clears the speaking flag and the
   utterance ref and invokes the completion callback once (the returned Nat
   is the number of callback invocations performed by the handler). -/
def utteranceOnEnd (_s : SpeechState) : SpeechState × Nat :=
  ({ isSpeaking := false, utteranceActive := false }, 1)

/- utterance.onerror (lines 319-330): clears the speaking flag and the
   utterance ref and invokes the completion callback once, for every error
   code (the code only selects a console warning). -/
def utteranceOnError (_code : String) (_s : SpeechState) : SpeechState × Nat :=
  ({ isSpeaking := false, utteranceActive := false }, 1)

/- Outcome of one speak call: the guard failed and the callback was invoked
   immediately; or attemptSpeak found the voices list empty with
   isVoicesLoaded false (lines 278-281) and rescheduled itself on the
   speechTimeoutRef timer without creating an utterance; or an utterance was
   started with its handlers attached and a watchdog timer armed for the
   recorded duration in milliseconds (line 340: Math.max(text.length * 100,
   5000)). -/
inductive SpeakResult
| immediateCallback
| voicesWaitScheduled
| utteranceStarted (watchdogDelayMs : Nat)
deriving DecidableEq, Repr

/- speak(text, onEndCallback), lines 260-353: if the guard fails the callback
   runs at once; otherwise any prior utterance is cancelled (its own handlers
   fire its own callback) and attemptSpeak runs: with the voices list empty
   and voices not yet loaded it only reschedules itself, else it creates the
   utterance with onend/onerror attached and arms the watchdog.
   voicesEmptyAtAttempt is the platform oracle for
   window.speechSynthesis.getVoices() returning an empty list. -/
def speak (env : SpeakEnv) (text : String) (voicesEmptyAtAttempt : Bool) :
    SpeakResult :=
  if speakGatePasses env text then
    if voicesEmptyAtAttempt && !env.isVoicesLoaded then
      .voicesWaitScheduled
    else
      .utteranceStarted (Nat.max (text.length * 100) 5000)
  else
    .immediateCallback

/- Fate of a speak call parked in the voices-wait retry of lines 278-281:
   either a later attempt finds voices (or the loaded flag) and starts the
   utterance, which then receives its terminal event, or the pending retry
   held in speechTimeoutRef is cleared — by the next speak call (lines
   270-272), by stopSpeaking (lines 360-362) or by the unmount cleanup
   (lines 716-719) — before the utterance exists, so neither an utterance
   nor any handler holding the callback is ever created. -/
inductive VoicesWaitOutcome
| utteranceStarts (ev : SpeechTerminalEvent)
| waitCleared
deriving DecidableEq, Repr

/- Callback invocations performed by the handler receiving the single
   terminal event of a started utterance. -/
def terminalEventCallbackCount (s : SpeechState) : SpeechTerminalEvent → Nat
| .endEvent => (utteranceOnEnd s).2
| .errorEvent code => (utteranceOnError code s).2

/- Number of invocations of the onEndCallback of one speak call: on the
   immediate path the callback runs inside speak itself; on the started path
   it runs inside whichever of onend/onerror receives the utterance's single
   terminal event; a call parked on the voices wait fires its callback once
   if the utterance eventually starts and zero times if the pending retry is
   cleared first. -/
def speakCallbackCount (env : SpeakEnv) (text : String) (s : SpeechState)
    (voicesEmptyAtAttempt : Bool) (wait : VoicesWaitOutcome)
    (ev : SpeechTerminalEvent) : Nat :=
  match speak env text voicesEmptyAtAttempt with
  | .immediateCallback => 1
  | .voicesWaitScheduled =>
    match wait with
    | .utteranceStarts ev2 => terminalEventCallbackCount s ev2
    | .waitCleared => 0
  | .utteranceStarted _ => terminalEventCallbackCount s ev

/- The watchdog timer body (lines 334-340): it tests the isSpeaking const
   captured by its closure — the value of the render that created this
   speak call — not the live flag; when that captured value is true it
   resets the live flag and drops the utterance ref, otherwise it does
   nothing. It never invokes the completion callback (second component 0). -/
def speechWatchdogFire (capturedIsSpeaking : Bool) (s : SpeechState) :
    SpeechState × Nat :=
  if capturedIsSpeaking then
    ({ isSpeaking := false, utteranceActive := false }, 0)
  else (s, 0)

/- Environment of a speak call made from a render with nothing speaking,
   output enabled and permission granted, before the synthesis voices have
   loaded. -/
def speakEnvVoicesPending : SpeakEnv :=
  { speechEnabled := true, hasSpeechSynthesis := true,
    microphonePermission := .granted, isVoicesLoaded := false,
    isSpeaking := false }

/-- C1 counterexample: a speak call that passes the guard while the voices
list is still empty parks in the voices-wait retry of lines 278-281; when
the pending retry held in speechTimeoutRef is cleared — by a later speak
call, stopSpeaking or the unmount cleanup — before the utterance is
created, the callback of that call is invoked zero times, so the claim that
the callback fires exactly once on every path is false on the code. -/
theorem speak_voicesWait_cleared_no_callback :
    speakCallbackCount speakEnvVoicesPending "hello"
      { isSpeaking := false, utteranceActive := false } true
      .waitCleared .endEvent = 0 := by
  decide

/-- C1 (amended): for every speak call the callback is invoked exactly once
— immediately on the guard-failure paths (output disabled, synthesis
unavailable, empty or whitespace-only text, permission not granted), and by
the single terminal event of its started utterance otherwise (natural end,
cancellation delivered as an error event, or any engine-reported error) —
except on the one path the code admits: a gate-passing call parked in the
voices-wait retry whose pending timer is cleared before the utterance is
created invokes the callback zero times. -/
theorem speak_callback_once_unless_voicesWait_cleared (env : SpeakEnv)
    (text : String) (s : SpeechState) (voicesEmptyAtAttempt : Bool)
    (wait : VoicesWaitOutcome) (ev : SpeechTerminalEvent) :
    speakCallbackCount env text s voicesEmptyAtAttempt wait ev =
      (if speak env text voicesEmptyAtAttempt = .voicesWaitScheduled ∧
          wait = .waitCleared then 0 else 1) := by
  unfold speakCallbackCount
  cases hr : speak env text voicesEmptyAtAttempt with
  | immediateCallback => simp [hr]
  | voicesWaitScheduled =>
    cases wait with
    | utteranceStarts ev2 =>
      cases ev2 <;>
        simp [hr, terminalEventCallbackCount, utteranceOnEnd, utteranceOnError]
    | waitCleared => simp [hr]
  | utteranceStarted d =>
    cases ev <;>
      simp [hr, terminalEventCallbackCount, utteranceOnEnd, utteranceOnError]

/- Environment of the standard stuck case documented by the watchdog: a
   speak call made from a render with nothing speaking, voices loaded,
   output enabled and permission granted. -/
def speakEnvStuck : SpeakEnv :=
  { speechEnabled := true, hasSpeechSynthesis := true,
    microphonePermission := .granted, isVoicesLoaded := true,
    isSpeaking := false }

/-- C3 (evaluation at the failing input): the watchdog is armed with
duration max(100 ms per character of text, 5000 ms) as the claim says, but
for a speak call made from a render where isSpeaking was false — the
standard flow — a watchdog firing while the live speaking flag is stuck
true leaves the flag true and the utterance ref in place: the guard of
lines 334-340 tests the render-captured isSpeaking const rather than the
live flag, so the force-reset the claim requires does not happen on this
path and the stuck speaking state persists. -/
theorem speechWatchdog_stale_guard_no_reset :
    speak speakEnvStuck "hello" false = .utteranceStarted 5000 ∧
    speechWatchdogFire speakEnvStuck.isSpeaking
        { isSpeaking := true, utteranceActive := true } =
      ({ isSpeaking := true, utteranceActive := true }, 0) := by
  decide

/- ------------------------------------------------------------------ -/
/- CaptureController: the switchCamera function (app.jsx lines 539-573). -/

/- A MediaStream as relevant here: which facing its tracks came from and
   whether those tracks are still live (track.stop() flips live to false). -/
structure MediaStreamModel where
  facing : CameraMode
  tracksLive : Bool
deriving DecidableEq, Repr

/- The component state touched by switchCamera. -/
structure CamState where
  cameraMode : CameraMode
  isCameraActive : Bool
  mediaStream : Option MediaStreamModel
  capturedImage : Option String
  error : Option String
deriving DecidableEq, Repr

/- A device operation performed against the platform media layer. -/
inductive DeviceOp
| stopTracks
| getUserMedia (facing : CameraMode)
deriving DecidableEq, Repr

/- Result of one switchCamera call: the new component state, the device
   operations performed, and the texts passed to speak. -/
structure SwitchOutcome where
  state : CamState
  deviceOps : List DeviceOp
  spoken : List String
deriving DecidableEq, Repr

/- Spoken label of a facing (newMode === user ? front : back). -/
def facingLabel : CameraMode → String
| .user => "front"
| .environment => "back"

/- switchCamera (lines 539-573): always flips cameraMode to the opposite
   facing first; when the camera is active with a stream, stops the current
   tracks and requests a stream for the new facing (the oracle
   getUserMediaSucceeds says whether that request succeeds); on failure
   speaks the error and restores the previous cameraMode, leaving the dead
   stream in place; when inactive (or without a stream) only speaks the
   mode announcement. -/
def switchCamera (s : CamState) (getUserMediaSucceeds : Bool) : SwitchOutcome :=
  let newMode := s.cameraMode.toggle
  let s1 := { s with cameraMode := newMode }
  if s.isCameraActive && s.mediaStream.isSome then
    let stopped := { s1 with
      mediaStream := s.mediaStream.map
        (fun (m : MediaStreamModel) => { m with tracksLive := false }) }
    if getUserMediaSucceeds then
      { state := { stopped with
          mediaStream := some { facing := newMode, tracksLive := true } },
        deviceOps := [.stopTracks, .getUserMedia newMode],
        spoken := ["Switched to " ++ facingLabel newMode ++ " camera."] }
    else
      { state := { stopped with cameraMode := s.cameraMode },
        deviceOps := [.stopTracks, .getUserMedia newMode],
        spoken := ["Unable to switch camera. Please try again."] }
  else
    { state := s1, deviceOps := [],
      spoken := ["Camera mode set to " ++ facingLabel newMode ++ " camera."] }

/- A facing has a fully active capture session when the current stream was
   opened for that facing and its tracks are still live. -/
def facingActive (s : CamState) (f : CameraMode) : Bool :=
  match s.mediaStream with
  | some m => m.tracksLive && m.facing == f
  | none => false

/- A concrete state with an active front-facing capture session. -/
def camStateBefore : CamState :=
  { cameraMode := .user, isCameraActive := true,
    mediaStream := some { facing := .user, tracksLive := true },
    capturedImage := none, error := none }

/-- C2 counterexample: starting from an active front-facing capture session,
a switchCamera call whose getUserMedia request fails leaves NEITHER facing
with an active capture session — the old tracks were already stopped and no
new stream was installed — while the camera-active flag still reads true, so
the claim that exactly one of the two facings remains fully active is false
on the code. -/
theorem switchCamera_failure_both_facings_stopped :
    facingActive (switchCamera camStateBefore false).state .user = false ∧
    facingActive (switchCamera camStateBefore false).state .environment = false ∧
    (switchCamera camStateBefore false).state.isCameraActive = true := by
  decide

/-- C2 (amended): for every switchCamera call that fails while a capture
session is active, the previous facing value is restored and the failure is
spoken, but no facing has a fully active capture session afterwards: the old
stream's tracks have already been stopped and no new stream was installed
(the camera-active flag is left unchanged at true). -/
theorem switchCamera_failure_restores_mode_but_stops_capture (s : CamState)
    (hactive : s.isCameraActive = true) (hstream : s.mediaStream.isSome = true) :
    (switchCamera s false).state.cameraMode = s.cameraMode ∧
    (∀ f : CameraMode, facingActive (switchCamera s false).state f = false) ∧
    (switchCamera s false).state.isCameraActive = true ∧
    (switchCamera s false).spoken = ["Unable to switch camera. Please try again."] := by
  obtain ⟨m, hm⟩ := Option.isSome_iff_exists.mp hstream
  simp [switchCamera, facingActive, hactive, hm]

/-- Witness for the amended C2: the concrete active front-facing state; a
failing switch restores the user facing, deactivates both facings, and
speaks the failure message. -/
theorem switchCamera_failure_amended_witness :
    (switchCamera camStateBefore false).state.cameraMode = .user ∧
    facingActive (switchCamera camStateBefore false).state .environment = false := by
  have h := switchCamera_failure_restores_mode_but_stops_capture camStateBefore
    (by decide) (by decide)
  exact ⟨h.1, h.2.1 .environment⟩

/-- C10: calling switchCamera while the camera is inactive toggles only the
cameraMode preference and speaks the mode announcement; the media stream,
camera-active flag, captured image and error state are unchanged, and no
device operation (stopTracks or getUserMedia) is performed. -/
theorem switchCamera_inactive_only_toggles_mode (s : CamState)
    (success : Bool) (hinactive : s.isCameraActive = false) :
    (switchCamera s success).state = { s with cameraMode := s.cameraMode.toggle } ∧
    (switchCamera s success).deviceOps = [] ∧
    (switchCamera s success).spoken =
      ["Camera mode set to " ++ facingLabel s.cameraMode.toggle ++ " camera."] := by
  unfold switchCamera
  simp [hinactive]

/-- Witness for C10: the concrete inactive state obtained by clearing the
active flag; the switch only flips the mode and performs no device
operation. -/
theorem switchCamera_inactive_witness :
    (switchCamera { camStateBefore with isCameraActive := false } true).state =
      { camStateBefore with isCameraActive := false, cameraMode := .environment } ∧
    (switchCamera { camStateBefore with isCameraActive := false } true).deviceOps = [] := by
  have h := switchCamera_inactive_only_toggles_mode
    { camStateBefore with isCameraActive := false } true rfl
  exact ⟨h.1, h.2.1⟩

/- ------------------------------------------------------------------ -/
/- SpeechInputController: the recognition.onerror, onend and onresult
   handlers (app.jsx lines 593-664) and startListening (lines 424-472). -/

/- Component state read and written by the recognition handlers. -/
structure RecState where
  isListening : Bool
  error : Option String
  isCameraActive : Bool
  microphonePermission : MicPermission
  isProcessing : Bool
deriving DecidableEq, Repr

/- The values assigned by the switch statement of recognition.onerror
   (lines 634-655): the error message (empty string for aborted, where only
   shouldSpeak is cleared), the shouldSpeak flag (initialized true), and
   whether the case sets microphone permission to denied. -/
structure RecErrorPolicy where
  errorMessage : String
  shouldSpeak : Bool
  setPermissionDenied : Bool
deriving DecidableEq, Repr

/- The switch of recognition.onerror, case by case in source order. -/
def classifyRecognitionError (code : String) : RecErrorPolicy :=
  if code = "not-allowed" ∨ code = "service-not-allowed" then
    { errorMessage := "Microphone access denied. Please allow microphone permissions and try again.",
      shouldSpeak := true, setPermissionDenied := true }
  else if code = "no-speech" then
    { errorMessage := "No speech detected. Please try speaking more clearly.",
      shouldSpeak := false, setPermissionDenied := false }
  else if code = "audio-capture" then
    { errorMessage := "No microphone found. Please check your microphone.",
      shouldSpeak := true, setPermissionDenied := false }
  else if code = "network" then
    { errorMessage := "Network error. Please check your internet connection.",
      shouldSpeak := true, setPermissionDenied := false }
  else if code = "aborted" then
    { errorMessage := "", shouldSpeak := false, setPermissionDenied := false }
  else
    { errorMessage := "Speech recognition failed. Please try again.",
      shouldSpeak := true, setPermissionDenied := false }

/- Result of one recognition.onerror invocation: the updated state and the
   texts passed to speak by the handler. -/
structure RecErrorOutcome where
  state : RecState
  spoken : List String
deriving DecidableEq, Repr

/- recognition.onerror (lines 627-664): clears isListening, applies the
   switch, records the error message when nonempty (speaking it when
   shouldSpeak), and clears isProcessing. -/
def recognitionOnError (s : RecState) (code : String) : RecErrorOutcome :=
  let p := classifyRecognitionError code
  let s1 := { s with isListening := false }
  let s2 := if p.setPermissionDenied then
      { s1 with microphonePermission := .denied } else s1
  let s3 := if p.errorMessage ≠ "" then
      { s2 with error := some p.errorMessage } else s2
  { state := { s3 with isProcessing := false },
    spoken := if p.errorMessage ≠ "" ∧ p.shouldSpeak then [p.errorMessage] else [] }

/- The values captured by the recognition handler closures at the render
   whose effect installed them (the effect depends on isCameraActive, error
   and microphonePermission, lines 576-674): state written afterwards by
   other handlers of the same attempt — such as onerror's setError — is not
   visible to these closures until the effect re-runs and replaces the
   recognition object. -/
structure RecRenderEnv where
  error : Option String
  isCameraActive : Bool
  microphonePermission : MicPermission
deriving DecidableEq, Repr

/- Result of one recognition.onend invocation: the updated live state and
   whether the 500 ms restart timer was scheduled. -/
structure RecEndOutcome where
  state : RecState
  restartScheduled : Bool
deriving DecidableEq, Repr

/- recognition.onend (lines 611-625): clears the live isListening flag;
   schedules the restart timer exactly when the captured error is null, the
   captured camera flag is active and the captured microphone permission is
   granted — the guard reads the closure constants of the installing render,
   not the live state. -/
def recognitionOnEnd (captured : RecRenderEnv) (s : RecState) : RecEndOutcome :=
  { state := { s with isListening := false },
    restartScheduled :=
      captured.error.isNone && captured.isCameraActive &&
        (captured.microphonePermission == .granted) }

/- Whether the scheduled restart actually starts recognition when the timer
   fires: the timer body (lines 615-623) is guarded by recognitionRef.current
   being non-null, i.e. the owning component not having been torn down. -/
def restartFires (o : RecEndOutcome) (refLiveAtTimer : Bool) : Bool :=
  o.restartScheduled && refLiveAtTimer

/- A concrete live state: camera active, permission granted, no recorded
   error (onstart cleared it), listening in progress. -/
def recStateLive : RecState :=
  { isListening := true, error := none, isCameraActive := true,
    microphonePermission := .granted, isProcessing := true }

/- The captured environment of such a live attempt: the installing render
   had a null error, the camera active and permission granted. -/
def recRenderLive : RecRenderEnv :=
  { error := none, isCameraActive := true, microphonePermission := .granted }

/-- C4 counterexample: a recognition attempt whose installing render
captured a null error, an active camera and granted permission is
terminated by the platform error aborted; the immediately following onend
still schedules — and, with the recognition ref live, fires — the
auto-restart, so the claim that restart never occurs after an
error-terminated end is false on the code. -/
theorem recognition_restart_after_aborted_error :
    restartFires
      (recognitionOnEnd recRenderLive
        (recognitionOnError recStateLive "aborted").state) true = true := by
  decide

/-- C4 (amended): after a recognition attempt ends, the restart timer is
scheduled if and only if the error captured by the onend closure at its
installing render is null, the captured camera flag is active and the
captured microphone permission is granted, and the scheduled restart fires
only if the recognition ref is still live (the owning session has not been
torn down); the error message written by the same attempt's onerror is
invisible to that closure, so an end following an onerror of any platform
code — aborted, no-speech, network or other — restarts under exactly the
same captured guard as a clean end: error-terminated ends are not treated
differently. -/
theorem recognition_restart_guard (captured : RecRenderEnv) (s : RecState)
    (refLive : Bool) (code : String) :
    restartFires (recognitionOnEnd captured s) refLive =
      (captured.error.isNone && captured.isCameraActive &&
        (captured.microphonePermission == .granted) && refLive) ∧
    restartFires
        (recognitionOnEnd captured (recognitionOnError s code).state) refLive =
      restartFires (recognitionOnEnd captured s) refLive := by
  exact ⟨rfl, rfl⟩

/-- C7: the recognition.onerror handler follows the classification table
exactly, for every component state: not-allowed and service-not-allowed are
spoken and set microphone permission to denied; no-speech records its message
but is not spoken and leaves permission unchanged; audio-capture, network and
every other unlisted code are spoken without revising permission; aborted
records no message, speaks nothing and leaves permission unchanged. -/
theorem recognition_error_classification (s : RecState) (code : String)
    (hother : code ≠ "not-allowed" ∧ code ≠ "service-not-allowed" ∧
      code ≠ "no-speech" ∧ code ≠ "audio-capture" ∧ code ≠ "network" ∧
      code ≠ "aborted") :
    ((recognitionOnError s "not-allowed").spoken =
        ["Microphone access denied. Please allow microphone permissions and try again."] ∧
      (recognitionOnError s "not-allowed").state.microphonePermission = .denied) ∧
    ((recognitionOnError s "service-not-allowed").spoken =
        ["Microphone access denied. Please allow microphone permissions and try again."] ∧
      (recognitionOnError s "service-not-allowed").state.microphonePermission = .denied) ∧
    ((recognitionOnError s "no-speech").state.error =
        some "No speech detected. Please try speaking more clearly." ∧
      (recognitionOnError s "no-speech").spoken = [] ∧
      (recognitionOnError s "no-speech").state.microphonePermission =
        s.microphonePermission) ∧
    ((recognitionOnError s "audio-capture").spoken =
        ["No microphone found. Please check your microphone."] ∧
      (recognitionOnError s "audio-capture").state.microphonePermission =
        s.microphonePermission) ∧
    ((recognitionOnError s "network").spoken =
        ["Network error. Please check your internet connection."] ∧
      (recognitionOnError s "network").state.microphonePermission =
        s.microphonePermission) ∧
    ((recognitionOnError s "aborted").state.error = s.error ∧
      (recognitionOnError s "aborted").spoken = [] ∧
      (recognitionOnError s "aborted").state.microphonePermission =
        s.microphonePermission) ∧
    ((recognitionOnError s code).spoken =
        ["Speech recognition failed. Please try again."] ∧
      (recognitionOnError s code).state.error =
        some "Speech recognition failed. Please try again." ∧
      (recognitionOnError s code).state.microphonePermission =
        s.microphonePermission) := by
  obtain ⟨h1, h2, h3, h4, h5, h6⟩ := hother
  refine ⟨?_, ?_, ?_, ?_, ?_, ?_, ?_⟩ <;>
    simp [recognitionOnError, classifyRecognitionError, h1, h2, h3, h4, h5, h6]

/-- Witness for C7: at the concrete live state with the unlisted platform
code bad-grammar, the handler speaks the generic failure message and leaves
permission at granted, while aborted speaks nothing. -/
theorem recognition_error_classification_witness :
    (recognitionOnError recStateLive "bad-grammar").spoken =
      ["Speech recognition failed. Please try again."] ∧
    (recognitionOnError recStateLive "aborted").spoken = [] := by
  have h := recognition_error_classification recStateLive "bad-grammar"
    (by refine ⟨?_, ?_, ?_, ?_, ?_, ?_⟩ <;> decide)
  exact ⟨h.2.2.2.2.2.2.1, h.2.2.2.2.2.1.2.1⟩

/- ------------------------------------------------------------------ -/
/- SessionOrchestrator entry point: startListening (app.jsx lines 424-472). -/

/- Component state read by startListening. -/
structure StartListeningEnv where
  hasSpeechRecognition : Bool
  microphonePermission : MicPermission
  isCameraActive : Bool
  isListening : Bool
  isProcessing : Bool
deriving DecidableEq, Repr

/- The branch startListening takes. -/
inductive StartListeningOutcome
| abortUnsupported
| abortNoMicPermission
| abortCameraInactive
| stopCurrentAttempt
| promptThenListen
deriving DecidableEq, Repr

/- Message of the unsupported-recognition precondition (line 426). -/
def msgUnsupported : String :=
  "Speech recognition is not supported in this browser. Please try Chrome or Edge."

/- Message of the missing-microphone-permission precondition (line 433). -/
def msgNoMicPermission : String :=
  "Microphone permission is required to ask questions. Please allow access."

/- Message of the camera-inactive precondition (line 440). -/
def msgCameraInactive : String := "Please turn on the camera first."

/- Result of one startListening call: the branch taken, the message recorded
   via setError and spoken (none on the stop and proceed branches), and
   whether the call leads to recognition.start() being invoked (true only on
   the proceed branch, inside the completion callback of the listening
   prompt). -/
structure StartListeningResult where
  outcome : StartListeningOutcome
  message : Option String
  recognitionStartInvoked : Bool
deriving DecidableEq, Repr

/- startListening (lines 424-472): the three guarded preconditions in source
   order, then the already-listening/already-processing stop branch, then the
   prompt whose completion callback starts recognition. -/
def startListening (e : StartListeningEnv) : StartListeningResult :=
  if e.hasSpeechRecognition = false then
    { outcome := .abortUnsupported, message := some msgUnsupported,
      recognitionStartInvoked := false }
  else if e.microphonePermission ≠ .granted then
    { outcome := .abortNoMicPermission, message := some msgNoMicPermission,
      recognitionStartInvoked := false }
  else if e.isCameraActive = false then
    { outcome := .abortCameraInactive, message := some msgCameraInactive,
      recognitionStartInvoked := false }
  else if e.isListening || e.isProcessing then
    { outcome := .stopCurrentAttempt, message := none,
      recognitionStartInvoked := false }
  else
    { outcome := .promptThenListen, message := none,
      recognitionStartInvoked := true }

/-- C5: for every startListening call made while speech recognition is
unsupported, or microphone permission is not granted, or the camera is
inactive, the turn aborts immediately with the distinct message of the first
failing precondition (checked in source order: support, permission, camera)
and recognition.start() is never invoked; the three precondition messages
are pairwise distinct, so camera inactivity in particular never leads to
recognition start and is reported by its own message. -/
theorem startListening_preconditions (e : StartListeningEnv)
    (h : e.hasSpeechRecognition = false ∨ e.microphonePermission ≠ .granted ∨
      e.isCameraActive = false) :
    (startListening e).recognitionStartInvoked = false ∧
    (startListening e).message =
      some (if e.hasSpeechRecognition = false then msgUnsupported
        else if e.microphonePermission ≠ .granted then msgNoMicPermission
        else msgCameraInactive) ∧
    msgUnsupported ≠ msgNoMicPermission ∧ msgUnsupported ≠ msgCameraInactive ∧
    msgNoMicPermission ≠ msgCameraInactive := by
  refine ⟨?_, ?_, by decide, by decide, by decide⟩
  · unfold startListening
    split_ifs <;> first | rfl | (exact absurd rfl (by tauto)) | tauto
  · unfold startListening
    split_ifs <;> first | rfl | tauto

/-- Witness for C5: recognition supported and permission granted but camera
inactive; the call aborts with the camera message and never starts
recognition. -/
theorem startListening_preconditions_witness :
    (startListening { hasSpeechRecognition := true,
                      microphonePermission := .granted,
                      isCameraActive := false, isListening := false,
                      isProcessing := false }).recognitionStartInvoked
      = false ∧
    (startListening { hasSpeechRecognition := true,
                      microphonePermission := .granted,
                      isCameraActive := false, isListening := false,
                      isProcessing := false }).message =
      some msgCameraInactive := by
  have h := startListening_preconditions
    { hasSpeechRecognition := true, microphonePermission := .granted,
      isCameraActive := false, isListening := false, isProcessing := false }
    (Or.inr (Or.inr rfl))
  refine ⟨h.1, ?_⟩
  have h2 := h.2.1
  simpa using h2

/- ------------------------------------------------------------------ -/
/- SpeechInputController transcript delivery: recognition.onresult
   (app.jsx lines 593-609). -/

/- Action taken by recognition.onresult on a delivered transcript. -/
inductive RecognitionResultAction
| analyzeQuestion (acknowledgement : String) (question : String)
| repromptUser (message : String)
deriving DecidableEq, Repr

/- recognition.onresult: trims the transcript; when it is nonempty and longer
   than 2 characters, records it as the current question and speaks an
   acknowledgement whose completion callback invokes processQuestion on the
   transcript; otherwise speaks the didnt-catch re-prompt and clears
   isProcessing. -/
def recognitionOnResult (rawTranscript : String) : RecognitionResultAction :=
  let transcript := jsTrim rawTranscript
  if transcript ≠ "" ∧ transcript.length > 2 then
    .analyzeQuestion
      ("I heard: " ++ transcript ++ ". Let me analyze what I can see.")
      transcript
  else
    .repromptUser
      "I didn\x27t catch that clearly. Please try asking your question again."

/- Whether the action reaches the vision-query path, i.e. invokes
   processQuestion and hence analyzeImageWithOpenAI. -/
def reachesVisionService : RecognitionResultAction → Bool
| .analyzeQuestion _ _ => true
| .repromptUser _ => false

/-- C6: for every recognition result, when the trimmed transcript has length
at most 2 the handler never reaches the vision-query path and re-prompts
with the didnt-catch message; when the trimmed transcript is longer than 2
characters the handler acknowledges it and proceeds to analysis with exactly
that transcript as the question. -/
theorem recognition_short_transcript_reprompts (raw : String) :
    ((jsTrim raw).length ≤ 2 →
      recognitionOnResult raw = .repromptUser
        "I didn\x27t catch that clearly. Please try asking your question again." ∧
      reachesVisionService (recognitionOnResult raw) = false) ∧
    ((jsTrim raw).length > 2 →
      recognitionOnResult raw = .analyzeQuestion
        ("I heard: " ++ jsTrim raw ++ ". Let me analyze what I can see.")
        (jsTrim raw) ∧
      reachesVisionService (recognitionOnResult raw) = true) := by
  constructor
  · intro hshort
    have hcond : ¬(jsTrim raw ≠ "" ∧ (jsTrim raw).length > 2) := by
      rintro ⟨-, hlong⟩
      omega
    unfold recognitionOnResult
    rw [if_neg hcond]
    exact ⟨rfl, rfl⟩
  · intro hlong
    have hne : jsTrim raw ≠ "" := by
      intro hempty
      rw [hempty] at hlong
      simp at hlong
    unfold recognitionOnResult
    rw [if_pos ⟨hne, hlong⟩]
    exact ⟨rfl, rfl⟩

/-- Witness for C6: the two-character transcript hi (padded with whitespace)
re-prompts, and the question what is this is analyzed. -/
theorem recognition_short_transcript_reprompts_witness :
    reachesVisionService (recognitionOnResult " hi ") = false ∧
    reachesVisionService (recognitionOnResult "what is this") = true := by
  refine ⟨((recognition_short_transcript_reprompts " hi ").1 (by decide)).2,
    ((recognition_short_transcript_reprompts "what is this").2 (by decide)).2⟩

/- ------------------------------------------------------------------ -/
/- VisionQueryService: analyzeImageWithOpenAI (app.jsx lines 192-258). -/

/- The upstream HTTP response as observed by the code: the ok flag and status
   of the fetch response, its statusText, the optional error message field of
   the parsed error body (errorData?.error?.message), and the optional answer
   field data.choices[0].message.content of the parsed success body. -/
structure ApiResponse where
  ok : Bool
  status : Nat
  statusText : String
  errorField : Option String
  answerContent : Option String
deriving DecidableEq, Repr

/- Classified failure of one vision query, each carrying the thrown message. -/
inductive QueryError
| unconfigured (message : String)
| transport (message : String)
| malformedResponse (message : String)
deriving DecidableEq, Repr

/- Message carried by a classified query failure (error.message). -/
def queryErrorMessage : QueryError → String
| .unconfigured m => m
| .transport m => m
| .malformedResponse m => m

/- Result of one analyzeImageWithOpenAI call: the returned answer or the
   classified thrown error, and the number of fetch requests issued. -/
structure AnalyzeOutcome where
  result : Except QueryError String
  fetchAttempts : Nat
deriving Repr

/- analyzeImageWithOpenAI (lines 192-258): with no API key configured the
   call throws before any fetch; otherwise it issues exactly one fetch and,
   on a non-ok response, throws a message containing the upstream status and
   the upstream error text (falling back to statusText); on an ok response
   missing the answer field it throws the invalid-response message; no retry
   is ever performed. -/
def analyzeImageWithOpenAI (apiKey : Option String) (resp : ApiResponse) :
    AnalyzeOutcome :=
  match apiKey with
  | none =>
    { result := .error (.unconfigured
        "OpenAI API key is not configured. Please check your environment variables."),
      fetchAttempts := 0 }
  | some _ =>
    if resp.ok = false then
      { result := .error (.transport
          ("API request failed: " ++ toString resp.status ++ " - " ++
            resp.errorField.getD resp.statusText)),
        fetchAttempts := 1 }
    else
      match resp.answerContent with
      | some content => { result := .ok content, fetchAttempts := 1 }
      | none =>
        { result := .error (.malformedResponse "Invalid response from AI service"),
          fetchAttempts := 1 }

/-- C8: for every analyzeImageWithOpenAI call: with no API key configured it
fails with the configuration error before any network request (zero fetch
attempts); with a key, a non-ok response fails with a transport error whose
message is exactly the upstream status followed by the upstream-provided
error text (statusText when the error body carries none); an ok response
missing the answer field fails with the malformed-response error; and every
call issues at most one fetch attempt. -/
theorem analyzeImage_error_classification (key : String) (resp : ApiResponse)
    (hfail : resp.ok = false) (hmissing : resp.answerContent = none) :
    (∀ r : ApiResponse,
      (analyzeImageWithOpenAI none r).result = .error (.unconfigured
        "OpenAI API key is not configured. Please check your environment variables.") ∧
      (analyzeImageWithOpenAI none r).fetchAttempts = 0) ∧
    (analyzeImageWithOpenAI (some key) resp).result = .error (.transport
      ("API request failed: " ++ toString resp.status ++ " - " ++
        resp.errorField.getD resp.statusText)) ∧
    (analyzeImageWithOpenAI (some key)
        { resp with ok := true }).result =
      .error (.malformedResponse "Invalid response from AI service") ∧
    (∀ (k : Option String) (r : ApiResponse),
      (analyzeImageWithOpenAI k r).fetchAttempts ≤ 1) := by
  refine ⟨fun r => ⟨rfl, rfl⟩, ?_, ?_, ?_⟩
  · simp [analyzeImageWithOpenAI, hfail]
  · simp [analyzeImageWithOpenAI, hmissing]
  · intro k r
    unfold analyzeImageWithOpenAI
    cases k with
    | none => exact Nat.zero_le 1
    | some k =>
      simp only
      split_ifs
      · exact Nat.le_refl 1
      · cases r.answerContent <;> simp

/-- Witness for C8: a concrete 401 response with an upstream error body; the
keyed call reports the transport message carrying status 401 and the
upstream text, the keyless call makes no fetch, and the ok-but-empty
response is malformed. -/
theorem analyzeImage_error_classification_witness :
    (analyzeImageWithOpenAI (some "sk-test")
        { ok := false, status := 401, statusText := "Unauthorized",
          errorField := some "Incorrect API key provided",
          answerContent := none }).result =
      .error (.transport "API request failed: 401 - Incorrect API key provided") ∧
    (analyzeImageWithOpenAI none
        { ok := false, status := 401, statusText := "Unauthorized",
          errorField := some "Incorrect API key provided",
          answerContent := none }).fetchAttempts = 0 := by
  have h := analyzeImage_error_classification "sk-test"
    { ok := false, status := 401, statusText := "Unauthorized",
      errorField := some "Incorrect API key provided", answerContent := none }
    rfl rfl
  refine ⟨?_, (h.1 { ok := false, status := 401, statusText := "Unauthorized",
                     errorField := some "Incorrect API key provided",
                     answerContent := none }).2⟩
  exact h.2.1

/- ------------------------------------------------------------------ -/
/- SessionOrchestrator analysis phase: processQuestion
   (app.jsx lines 383-422). -/

/- Component state read and written by processQuestion. -/
structure ProcessState where
  isCameraActive : Bool
  isProcessing : Bool
  error : Option String
  assistantResponse : String
  capturedImage : Option String
deriving DecidableEq, Repr

/- processQuestion (lines 383-422): aborts with a spoken message when the
   camera is inactive or captureImage returns null, otherwise records the
   captured frame and either the answer (clearing the error) or the error
   message of the failed analysis (error.message, with the generic fallback
   when that message is empty); the finally block clears isProcessing on
   every path, as do both early returns. The capture and analysis outcomes
   are oracle parameters. -/
def processQuestion (s : ProcessState) (capturedFrame : Option String)
    (analysis : Except QueryError String) : ProcessState :=
  if s.isCameraActive = false then
    { s with
      error := some "Camera is not active. Please turn on the camera first.",
      isProcessing := false }
  else
    match capturedFrame with
    | none =>
      { s with
        error := some "Unable to capture image. Please ensure the camera is working.",
        isProcessing := false }
    | some img =>
      match analysis with
      | .ok response =>
        { s with capturedImage := some img,
                 assistantResponse := response,
                 error := none,
                 isProcessing := false }
      | .error e =>
        let m := if queryErrorMessage e = "" then
            "Sorry, I encountered an error analyzing the image. Please try again."
          else queryErrorMessage e
        { s with capturedImage := some img,
                 error := some m,
                 assistantResponse := m,
                 isProcessing := false }

/-- C9 (implicit): for every processQuestion call, the isProcessing flag is
false when the call completes, on every exit path — camera inactive, frame
capture returning null, successful analysis, and analysis error alike — so a
turn can never terminate with the processing flag stuck true. -/
theorem processQuestion_clears_isProcessing (s : ProcessState)
    (capturedFrame : Option String) (analysis : Except QueryError String) :
    (processQuestion s capturedFrame analysis).isProcessing = false := by
  unfold processQuestion
  split_ifs
  · rfl
  · cases capturedFrame with
    | none => rfl
    | some img => cases analysis <;> rfl

end EAkshi
